import Mathlib

/-!
Verification of the QUIC anti-spoofing token subsystem
(`src/quic/node_quic_crypto.cc`): retry-token generation and validation,
stateless reset tokens, and IPv6 flow labels.

Modelling conventions:

* Byte buffers are `List Nat`.  Machine integers are `Nat` reduced
  modulo `2 ^ w` exactly where the C code's fixed-width arithmetic can
  overflow.
* The cryptographic primitives (HKDF extract/expand via
  `ngtcp2_crypto_hkdf_extract` / `ngtcp2_crypto_derive_packet_protection_key`,
  and the AEAD via `ngtcp2_crypto_encrypt` / `ngtcp2_crypto_decrypt`) are
  external collaborators.  They are modelled symbolically and ideally: key
  derivation is an injective function of (secret, nonce), and the AEAD tag
  is an injective function of (key, iv, aad, plaintext), so that
  authentication succeeds exactly when key, iv and associated data match.
  Injectivity is realised through a concrete injective code of byte lists
  into `Nat` (`listCode`), so every definition remains executable.
* The ambient process state read by the functions — the monotonic clock
  `uv_hrtime()` and the CSPRNG `EntropySource` — is passed explicitly as a
  `CryptoEnv` value (explicit state passing).  Functions that do not read
  the clock or the entropy source simply ignore the environment.
-/

set_option maxRecDepth 2048

namespace NodeQuic

/-- Byte buffers are lists of naturals. -/
abbrev Bytes := List Nat

/-- Modelled from the spec: `kTokenRandLen`, the fixed length of the random
nonce appended to a retry token, declared in `node_quic_util.h` which is not
part of the sources; the spec fixes the nonce length at 32 bytes. -/
def kTokenRandLen : Nat := 32

/-- Modelled from the spec: `kTokenSecretLen`, the fixed length of the
token secret, declared in `node_quic_util.h` which is not part of the
sources; the spec fixes the secret at 32 bytes. -/
def kTokenSecretLen : Nat := 32

/-- `ngtcp2_crypto_aead_taglen` for the initial crypto context's AEAD
(AES-128-GCM): 16 bytes.  External ngtcp2 constant. -/
def kAeadTagLen : Nat := 16

/-- `NGTCP2_SECONDS`: one second expressed in the nanosecond time unit of
the monotonic clock.  External ngtcp2 constant. -/
def NGTCP2_SECONDS : Nat := 1000000000

/-- `NGTCP2_MIN_CIDLEN`: minimum length of a nonzero-length connection ID.
External ngtcp2 constant (the spec's `minCidLen`). -/
def NGTCP2_MIN_CIDLEN : Nat := 1

/-- `NGTCP2_MAX_CIDLEN`: maximum length of a connection ID.  External
ngtcp2 constant (the spec's `maxCidLen`, 20 bytes). -/
def NGTCP2_MAX_CIDLEN : Nat := 20

/-- `NGTCP2_STATELESS_RESET_TOKENLEN`: stateless reset tokens are 16
bytes.  External ngtcp2 constant. -/
def NGTCP2_STATELESS_RESET_TOKENLEN : Nat := 16

/-- The size of the fixed `std::array<uint8_t, 4096>` plaintext scratch
buffer in `GenerateRetryToken` — the defensive plaintext cap named by the
spec. -/
def kRetryTokenPlaintextCap : Nat := 4096

/-- Modelled from the spec: the maximum raw byte length of a
`SocketAddress` (family-specific fixed format; `sizeof(sockaddr_in6)`,
28 bytes on the target platform, as used by `kInfoLen` in
`GenerateFlowLabel`). -/
def kMaxSockaddrLen : Nat := 28

/-- `kInfoLen` from `GenerateFlowLabel`: room for two socket addresses and
a maximal connection ID. -/
def kInfoLen : Nat := 2 * kMaxSockaddrLen + NGTCP2_MAX_CIDLEN

/-- Modelled from the spec: `kLabelMask`, the 20-bit IPv6 flow-label mask
declared in `node_quic_util.h` which is not part of the sources. -/
def kLabelMask : Nat := 2 ^ 20 - 1

/-- Write each element of the list in unary (digit `1`) followed by the
separator digit `2`.  Helper for the injective byte-list code used by the
symbolic cryptographic primitives. -/
def unaryDigits : List Nat → List Nat
  | [] => []
  | a :: l => List.replicate a 1 ++ 2 :: unaryDigits l

/-- Injective, executable code of a byte list as a natural number: the
base-3 reading of its unary digit string. -/
def listCode (l : Bytes) : Nat := Nat.ofDigits 3 (unaryDigits l)

/-- The 8 bytes of a `uint64_t`, least significant byte first.
`GenerateRetryToken` writes the timestamp into the plaintext with
`std::copy_n(reinterpret_cast<uint8_t*>(&now), sizeof(uint64_t), p)` and
`InvalidRetryToken` reads it back with `memcpy(&t, ..., 8)`: the same
host byte order on both sides, modelled as little-endian. -/
def u64BytesLE (n : Nat) : Bytes := (List.range 8).map fun i => n / 256 ^ i % 256

/-- Read 8 memory bytes back into a `uint64_t`; every memory byte is 8
bits wide, hence the per-byte reduction modulo 256. -/
def u64OfBytesLE (l : Bytes) : Nat :=
  ((l.take 8).map (· % 256)).foldr (fun b acc => acc * 256 + b) 0

/-- The ambient process state read by the token subsystem: the monotonic
clock `uv_hrtime()` and the CSPRNG `EntropySource` (as a stream of
bytes).  Passed explicitly; functions that read neither ignore it. -/
structure CryptoEnv where
  hrtime : Nat
  entropy : Nat → Nat

/-- `EntropySource(buf, n)`: the first `n` bytes drawn from the
environment's entropy stream. -/
def entropyBytes (e : CryptoEnv) (n : Nat) : Bytes :=
  (List.range n).map e.entropy

/-- `DeriveTokenKey`: HKDF-Extract of the token secret salted with the
random data, expanded into an AEAD (key, iv) pair
(`ngtcp2_crypto_hkdf_extract` + `ngtcp2_crypto_derive_packet_protection_key`).
Symbolic ideal model: the pair is an injective function of
(secret, random data), and derivation never fails. -/
def DeriveTokenKey (rand_data : Bytes) (token_secret : Bytes) : Nat × Nat :=
  let prk := Nat.pair (listCode token_secret) (listCode rand_data)
  (Nat.pair 0 prk, Nat.pair 1 prk)

/-- The AEAD authentication tag, `kAeadTagLen` bytes.  Symbolic ideal
model: the first tag byte is an injective function of (key, iv, aad,
plaintext), so authentication succeeds exactly when all four match. -/
def aeadTag (key iv : Nat) (aad pt : Bytes) : Bytes :=
  Nat.pair (Nat.pair key iv) (Nat.pair (listCode aad) (listCode pt)) ::
    List.replicate (kAeadTagLen - 1) 0

/-- `ngtcp2_crypto_encrypt`: AEAD seal; ciphertext is the plaintext
followed by the authentication tag. -/
def cryptoEncrypt (pt : Bytes) (key iv : Nat) (aad : Bytes) : Bytes :=
  pt ++ aeadTag key iv aad pt

/-- `ngtcp2_crypto_decrypt`: AEAD open; succeeds exactly when the trailing
tag authenticates the leading plaintext under the same key, iv and
associated data. -/
def cryptoDecrypt (ct : Bytes) (key iv : Nat) (aad : Bytes) : Option Bytes :=
  if kAeadTagLen ≤ ct.length ∧
      ct.drop (ct.length - kAeadTagLen) =
        aeadTag key iv aad (ct.take (ct.length - kAeadTagLen)) then
    some (ct.take (ct.length - kAeadTagLen))
  else
    none

/-- The assembled retry-token plaintext: raw socket-address bytes, the
8-byte timestamp, and the original connection ID. -/
def retryTokenPlaintext (addr : Bytes) (now : Nat) (ocid : Bytes) : Bytes :=
  addr ++ u64BytesLE now ++ ocid

/-- `GenerateRetryToken` from `node_quic_crypto.cc`: assemble
`addr ‖ now ‖ ocid`, derive a one-time AEAD key from the token secret and
fresh random data, seal the plaintext with the address as associated
data, and append the random data.  The clock value and the random bytes
come from the explicit environment (`uv_hrtime()` / `EntropySource`).
The symbolic key derivation and seal cannot fail, so the function is
total; note that the source performs no size check of the assembled
plaintext against its 4096-byte scratch buffer. -/
def GenerateRetryToken (e : CryptoEnv) (addr : Bytes) (ocid : Bytes)
    (token_secret : Bytes) : Bytes :=
  let now := e.hrtime
  let rand_data := entropyBytes e kTokenRandLen
  let plaintext := retryTokenPlaintext addr now ocid
  let ki := DeriveTokenKey rand_data token_secret
  cryptoEncrypt plaintext ki.1 ki.2 addr ++ rand_data

/-- `InvalidRetryToken` from `node_quic_crypto.cc`: returns `true` when
the token cannot be validated.  The out-parameter `ocid` is threaded as
explicit state: the pair holds (result, final contents of `*ocid`).
`now` is read from the environment's clock inside the function, exactly
as the source calls `uv_hrtime()` in the expiration test. -/
def InvalidRetryToken (e : CryptoEnv) (token : Bytes) (addr : Bytes)
    (ocid : Bytes) (token_secret : Bytes) (verification_expiration : Nat) :
    Bool × Bytes :=
  if token.length < kTokenRandLen then (true, ocid) else
  let ciphertextlen := token.length - kTokenRandLen
  let ciphertext := token.take ciphertextlen
  let rand_data := token.drop ciphertextlen
  let ki := DeriveTokenKey rand_data token_secret
  match cryptoDecrypt ciphertext ki.1 ki.2 addr with
  | none => (true, ocid)
  | some plaintext =>
    let plaintextlen := ciphertextlen - kAeadTagLen
    if plaintextlen < addr.length + 8 then (true, ocid) else
    let cil := plaintextlen - addr.length - 8
    if (cil ≠ 0 ∧ (cil < NGTCP2_MIN_CIDLEN ∨ NGTCP2_MAX_CIDLEN < cil)) ∨
        plaintext.take addr.length ≠ addr then (true, ocid) else
    let t := u64OfBytesLE (plaintext.drop addr.length)
    if (t + verification_expiration * NGTCP2_SECONDS) % 2 ^ 64 <
        e.hrtime % 2 ^ 64 then (true, ocid) else
    (false, (plaintext.drop (addr.length + 8)).take cil)

/-- The error taxonomy of the validation branches of `InvalidRetryToken`
(the spec's adversarial-input outcomes).  The derivation-failure branch of
the source is not representable here because the symbolic key derivation
is total. -/
inductive RetryTokenFailure where
  | tokenTooShort
  | authenticationFailure
  | plaintextTooShort
  | invalidCidLength
  | addressMismatch
  | expiredToken
deriving DecidableEq

/-- Instrumented mirror of `InvalidRetryToken` that records which
rejection branch fired (`none` means the token is valid).  Used only to
state that the observable result collapses all failure kinds. -/
def validateReason (e : CryptoEnv) (token : Bytes) (addr : Bytes)
    (token_secret : Bytes) (verification_expiration : Nat) :
    Option RetryTokenFailure :=
  if token.length < kTokenRandLen then some .tokenTooShort else
  let ciphertextlen := token.length - kTokenRandLen
  let ciphertext := token.take ciphertextlen
  let rand_data := token.drop ciphertextlen
  let ki := DeriveTokenKey rand_data token_secret
  match cryptoDecrypt ciphertext ki.1 ki.2 addr with
  | none => some .authenticationFailure
  | some plaintext =>
    let plaintextlen := ciphertextlen - kAeadTagLen
    if plaintextlen < addr.length + 8 then some .plaintextTooShort else
    let cil := plaintextlen - addr.length - 8
    if (cil ≠ 0 ∧ (cil < NGTCP2_MIN_CIDLEN ∨ NGTCP2_MAX_CIDLEN < cil)) ∨
        plaintext.take addr.length ≠ addr then
      some (if cil ≠ 0 ∧ (cil < NGTCP2_MIN_CIDLEN ∨ NGTCP2_MAX_CIDLEN < cil)
        then .invalidCidLength else .addressMismatch) else
    let t := u64OfBytesLE (plaintext.drop addr.length)
    if (t + verification_expiration * NGTCP2_SECONDS) % 2 ^ 64 <
        e.hrtime % 2 ^ 64 then some .expiredToken else
    none

/-- `ngtcp2_crypto_generate_stateless_reset_token`: the external ngtcp2
utility `GenerateResetToken` defers to.  Modelled from the spec: a single
deterministic KDF application of (secret, cid) producing a fixed
16-byte output. -/
def statelessResetToken (secret : Bytes) (cid : Bytes) : Bytes :=
  Nat.pair (listCode secret) (listCode cid) ::
    List.replicate (NGTCP2_STATELESS_RESET_TOKENLEN - 1) 0

/-- `GenerateResetToken` from `node_quic_crypto.cc`: defers to the
deterministic ngtcp2 utility.  It reads neither the clock nor the entropy
source, so the ambient environment is ignored. -/
def GenerateResetToken (_ : CryptoEnv) (secret : Bytes) (cid : Bytes) : Bytes :=
  statelessResetToken secret cid

/-- `ngtcp2_crypto_hkdf_expand` producing 4 bytes read back as a
`uint32_t`.  Symbolic ideal model: an injective function of
(secret, info), reduced to 32 bits. -/
def hkdfExpandU32 (secret : Bytes) (info : Bytes) : Nat :=
  Nat.pair (listCode secret) (listCode info) % 2 ^ 32

/-- `GenerateFlowLabel` from `node_quic_crypto.cc`: HKDF-Expand over the
secret with local-address ‖ remote-address ‖ cid as info, masked to 20
bits.  `label &= kLabelMask` with the all-ones 20-bit mask is reduction
modulo `kLabelMask + 1`.  The `CHECK_LE(infolen, kInfoLen)` assertion
aborts the process when the inputs overrun the scratch buffer, modelled
as `none`.  Reads neither the clock nor the entropy source. -/
def GenerateFlowLabel (_ : CryptoEnv) (laddr : Bytes) (raddr : Bytes)
    (cid : Bytes) (secret : Bytes) : Option Nat :=
  let infolen := laddr.length + raddr.length + cid.length
  if infolen ≤ kInfoLen then
    some (hkdfExpandU32 secret (laddr ++ raddr ++ cid) % (kLabelMask + 1))
  else
    none

/-! ### Properties of the injective byte-list code -/

lemma unaryDigits_mem {l : List Nat} {d : Nat} (h : d ∈ unaryDigits l) :
    d = 1 ∨ d = 2 := by
  induction l with
  | nil => simp [unaryDigits] at h
  | cons a l ih =>
    simp only [unaryDigits, List.mem_append, List.mem_cons] at h
    rcases h with h | h | h
    · exact Or.inl (List.eq_of_mem_replicate h)
    · exact Or.inr h
    · exact ih h

lemma unaryDigits_eq_nil {l : List Nat} (h : unaryDigits l = []) : l = [] := by
  cases l with
  | nil => rfl
  | cons a l =>
    simp only [unaryDigits] at h
    exact absurd h (by simp)

lemma replicate_sep {a₁ a₂ : Nat} {r₁ r₂ : List Nat}
    (h : List.replicate a₁ 1 ++ 2 :: r₁ = List.replicate a₂ 1 ++ 2 :: r₂) :
    a₁ = a₂ ∧ r₁ = r₂ := by
  induction a₁ generalizing a₂ with
  | zero =>
    cases a₂ with
    | zero => simpa using h
    | succ m => simp [List.replicate_succ] at h
  | succ n ih =>
    cases a₂ with
    | zero => simp [List.replicate_succ] at h
    | succ m =>
      simp only [List.replicate_succ, List.cons_append, List.cons.injEq] at h
      obtain ⟨h₁, h₂⟩ := ih h.2
      exact ⟨by omega, h₂⟩

lemma unaryDigits_inj : ∀ {l₁ l₂ : List Nat},
    unaryDigits l₁ = unaryDigits l₂ → l₁ = l₂ := by
  intro l₁
  induction l₁ with
  | nil =>
    intro l₂ h
    exact (unaryDigits_eq_nil h.symm).symm
  | cons a l ih =>
    intro l₂ h
    cases l₂ with
    | nil => exact absurd (unaryDigits_eq_nil h) (by simp)
    | cons b l₂ =>
      simp only [unaryDigits] at h
      obtain ⟨h₁, h₂⟩ := replicate_sep h
      exact by rw [h₁, ih h₂]

lemma listCode_inj {l₁ l₂ : Bytes} (h : listCode l₁ = listCode l₂) :
    l₁ = l₂ := by
  unfold listCode at h
  rcases eq_or_ne (unaryDigits l₁) [] with h₁ | h₁
  · rcases eq_or_ne (unaryDigits l₂) [] with h₂ | h₂
    · rw [unaryDigits_eq_nil h₁, unaryDigits_eq_nil h₂]
    · exfalso
      rw [h₁, Nat.ofDigits_nil] at h
      rcases hd : unaryDigits l₂ with _ | ⟨d, ds⟩
      · exact h₂ hd
      · have hdm : d = 1 ∨ d = 2 := unaryDigits_mem (by rw [hd]; simp)
        rw [hd, Nat.ofDigits_cons] at h
        omega
  · rcases eq_or_ne (unaryDigits l₂) [] with h₂ | h₂
    · exfalso
      rw [h₂, Nat.ofDigits_nil] at h
      rcases hd : unaryDigits l₁ with _ | ⟨d, ds⟩
      · exact h₁ hd
      · have hdm : d = 1 ∨ d = 2 := unaryDigits_mem (by rw [hd]; simp)
        rw [hd, Nat.ofDigits_cons] at h
        omega
    · have hlt₁ : ∀ d ∈ unaryDigits l₁, d < 3 := by
        intro d hd; rcases unaryDigits_mem hd with h' | h' <;> omega
      have hlt₂ : ∀ d ∈ unaryDigits l₂, d < 3 := by
        intro d hd; rcases unaryDigits_mem hd with h' | h' <;> omega
      have hlast₁ : ∀ (hne : unaryDigits l₁ ≠ []),
          (unaryDigits l₁).getLast hne ≠ 0 := by
        intro hne
        have := unaryDigits_mem (List.getLast_mem hne)
        omega
      have hlast₂ : ∀ (hne : unaryDigits l₂ ≠ []),
          (unaryDigits l₂).getLast hne ≠ 0 := by
        intro hne
        have := unaryDigits_mem (List.getLast_mem hne)
        omega
      have hd₁ := Nat.digits_ofDigits 3 (by omega) (unaryDigits l₁) hlt₁ hlast₁
      have hd₂ := Nat.digits_ofDigits 3 (by omega) (unaryDigits l₂) hlt₂ hlast₂
      exact unaryDigits_inj (by rw [← hd₁, ← hd₂, h])

/-! ### Serialization and primitive lemmas -/

lemma u64BytesLE_length (n : Nat) : (u64BytesLE n).length = 8 := by
  simp [u64BytesLE]

lemma u64_roundtrip (n : Nat) : u64OfBytesLE (u64BytesLE n) = n % 2 ^ 64 := by
  have h : List.range 8 = [0, 1, 2, 3, 4, 5, 6, 7] := by decide
  simp only [u64BytesLE, u64OfBytesLE, h, List.map_cons, List.map_nil,
    List.take_cons, List.take_nil, List.foldr_cons, List.foldr_nil]
  norm_num
  omega

lemma u64OfBytesLE_append (n : Nat) (l : Bytes) :
    u64OfBytesLE (u64BytesLE n ++ l) = n % 2 ^ 64 := by
  have h : (u64BytesLE n ++ l).take 8 = u64BytesLE n := by
    rw [show (8 : Nat) = (u64BytesLE n).length from (u64BytesLE_length n).symm,
      List.take_left]
  have h' : (u64BytesLE n).take 8 = u64BytesLE n := by
    rw [show (8 : Nat) = (u64BytesLE n).length from (u64BytesLE_length n).symm,
      List.take_length]
  rw [← u64_roundtrip n]
  unfold u64OfBytesLE
  rw [h, h']

lemma entropyBytes_length (e : CryptoEnv) (n : Nat) :
    (entropyBytes e n).length = n := by simp [entropyBytes]

lemma aeadTag_length (key iv : Nat) (aad pt : Bytes) :
    (aeadTag key iv aad pt).length = kAeadTagLen := by
  simp [aeadTag, kAeadTagLen]

lemma cryptoDecrypt_encrypt (pt : Bytes) (key iv : Nat) (aad : Bytes) :
    cryptoDecrypt (cryptoEncrypt pt key iv aad) key iv aad = some pt := by
  unfold cryptoDecrypt cryptoEncrypt
  have hlen : (pt ++ aeadTag key iv aad pt).length - kAeadTagLen = pt.length := by
    simp [aeadTag_length]
  rw [hlen]
  rw [List.take_left, List.drop_left]
  have htl := aeadTag_length key iv aad pt
  simp [kAeadTagLen] at htl ⊢
  omega

lemma cryptoDecrypt_encrypt_ne_aad (pt : Bytes) (key iv : Nat) (aad aad' : Bytes)
    (h : aad' ≠ aad) :
    cryptoDecrypt (cryptoEncrypt pt key iv aad) key iv aad' = none := by
  unfold cryptoDecrypt cryptoEncrypt
  have hlen : (pt ++ aeadTag key iv aad pt).length - kAeadTagLen = pt.length := by
    simp [aeadTag_length]
  rw [hlen, List.take_left, List.drop_left]
  rw [if_neg]
  rintro ⟨-, htag⟩
  have hhead : Nat.pair (Nat.pair key iv) (Nat.pair (listCode aad) (listCode pt)) =
      Nat.pair (Nat.pair key iv) (Nat.pair (listCode aad') (listCode pt)) := by
    have := congrArg (fun l => l.headI) htag
    simpa [aeadTag] using this
  have := (Nat.pair_eq_pair.mp ((Nat.pair_eq_pair.mp hhead).2)).1
  exact h (listCode_inj this.symm)

/-! ### Behaviour of validation on well-formed tokens -/

/-- Validating a token produced by `GenerateRetryToken` under the same
address and secret reduces to the connection-ID length check and the
expiration check; on success the embedded connection ID is recovered. -/
lemma validate_generated (e₁ e₂ : CryptoEnv) (addr cid S ocid₀ : Bytes) (w : Nat) :
    InvalidRetryToken e₂ (GenerateRetryToken e₁ addr cid S) addr ocid₀ S w =
      if cid.length ≠ 0 ∧
          (cid.length < NGTCP2_MIN_CIDLEN ∨ NGTCP2_MAX_CIDLEN < cid.length) then
        (true, ocid₀)
      else if (e₁.hrtime % 2 ^ 64 + w * NGTCP2_SECONDS) % 2 ^ 64 <
          e₂.hrtime % 2 ^ 64 then
        (true, ocid₀)
      else (false, cid) := by
  set rand := entropyBytes e₁ kTokenRandLen with hrand_def
  have hrand : rand.length = kTokenRandLen := entropyBytes_length e₁ kTokenRandLen
  set ki := DeriveTokenKey rand S with hki_def
  set pt := retryTokenPlaintext addr e₁.hrtime cid with hpt_def
  have hptlen : pt.length = addr.length + (8 + cid.length) := by
    simp [hpt_def, retryTokenPlaintext, u64BytesLE_length]
  set ct := cryptoEncrypt pt ki.1 ki.2 addr with hct_def
  have hctlen : ct.length = pt.length + kAeadTagLen := by
    simp [hct_def, cryptoEncrypt, aeadTag_length]
  have hgen : GenerateRetryToken e₁ addr cid S = ct ++ rand := rfl
  rw [hgen]
  simp only [InvalidRetryToken]
  have hlen1 : ¬ (ct ++ rand).length < kTokenRandLen := by
    simp [List.length_append, hrand]
  rw [if_neg hlen1]
  have hclen : (ct ++ rand).length - kTokenRandLen = ct.length := by
    simp [List.length_append, hrand]
  rw [hclen, List.take_left, List.drop_left, ← hki_def, cryptoDecrypt_encrypt]
  dsimp only
  have hplen : ct.length - kAeadTagLen = pt.length := by omega
  rw [hplen]
  have hlen2 : ¬ pt.length < addr.length + 8 := by omega
  rw [if_neg hlen2]
  have hcil : pt.length - addr.length - 8 = cid.length := by omega
  rw [hcil]
  have haddr : pt.take addr.length = addr := by
    rw [hpt_def]
    unfold retryTokenPlaintext
    rw [List.append_assoc, List.take_left]
  have ht : u64OfBytesLE (pt.drop addr.length) = e₁.hrtime % 2 ^ 64 := by
    rw [hpt_def]
    unfold retryTokenPlaintext
    rw [List.append_assoc, List.drop_left, u64OfBytesLE_append]
  have hfin : (pt.drop (addr.length + 8)).take cid.length = cid := by
    rw [hpt_def]
    unfold retryTokenPlaintext
    rw [show addr.length + 8 = (addr ++ u64BytesLE e₁.hrtime).length by
        simp [u64BytesLE_length], List.drop_left, List.take_length]
  rw [haddr, ht, hfin]
  by_cases hP : cid.length ≠ 0 ∧
      (cid.length < NGTCP2_MIN_CIDLEN ∨ NGTCP2_MAX_CIDLEN < cid.length)
  · rw [if_pos (Or.inl hP), if_pos hP]
  · rw [if_neg (by simpa using hP), if_neg hP]

/-- A connection-ID length that is zero or within the protocol bounds
passes the length check of `InvalidRetryToken`. -/
lemma cid_len_check_passes {cid : Bytes}
    (hcid : cid.length = 0 ∨
      (NGTCP2_MIN_CIDLEN ≤ cid.length ∧ cid.length ≤ NGTCP2_MAX_CIDLEN)) :
    ¬ (cid.length ≠ 0 ∧
      (cid.length < NGTCP2_MIN_CIDLEN ∨ NGTCP2_MAX_CIDLEN < cid.length)) := by
  simp only [NGTCP2_MIN_CIDLEN, NGTCP2_MAX_CIDLEN] at *
  omega

/-- Every path of `InvalidRetryToken` either rejects with the out-parameter
untouched or reports the token valid. -/
lemma invalid_retry_token_cases (e : CryptoEnv) (token addr ocid₀ S : Bytes)
    (w : Nat) :
    InvalidRetryToken e token addr ocid₀ S w = (true, ocid₀) ∨
    (InvalidRetryToken e token addr ocid₀ S w).1 = false := by
  simp only [InvalidRetryToken]
  repeat' split
  all_goals simp

/-- The observable result of `InvalidRetryToken` is `true` exactly when
some rejection branch of the instrumented mirror fires. -/
lemma invalid_fst_eq_reason_isSome (e : CryptoEnv) (token addr ocid₀ S : Bytes)
    (w : Nat) :
    (InvalidRetryToken e token addr ocid₀ S w).1 =
      (validateReason e token addr S w).isSome := by
  simp only [InvalidRetryToken, validateReason]
  repeat' split
  all_goals simp_all

/-- The total token length produced by `GenerateRetryToken`: plaintext
plus AEAD tag plus appended random data. -/
lemma generateRetryToken_length (e : CryptoEnv) (addr cid S : Bytes) :
    (GenerateRetryToken e addr cid S).length =
      (retryTokenPlaintext addr e.hrtime cid).length
        + kAeadTagLen + kTokenRandLen := by
  simp only [GenerateRetryToken, cryptoEncrypt, List.length_append,
    aeadTag_length, entropyBytes_length]

/-! ### The claims -/

/-- C1: Round-trip.  For every 32-byte secret, every socket address,
every connection ID whose length is 0 or within the protocol's
[min, max] bounds, and every generation time, a retry token encoded by
`GenerateRetryToken` and validated by `InvalidRetryToken` under the same
address and secret at any time `now` with `now - t0` at most the
expiration window (scaled to the clock's nanosecond unit) is accepted
and yields exactly the original connection-ID bytes. -/
theorem retry_token_roundtrip (e₁ e₂ : CryptoEnv) (addr cid S ocid₀ : Bytes)
    (w : Nat)
    (hS : S.length = kTokenSecretLen)
    (haddr : addr.length ≤ kMaxSockaddrLen)
    (hcid : cid.length = 0 ∨
      (NGTCP2_MIN_CIDLEN ≤ cid.length ∧ cid.length ≤ NGTCP2_MAX_CIDLEN))
    (hov : e₁.hrtime + w * NGTCP2_SECONDS < 2 ^ 64)
    (hδ : e₂.hrtime ≤ e₁.hrtime + w * NGTCP2_SECONDS) :
    InvalidRetryToken e₂ (GenerateRetryToken e₁ addr cid S) addr ocid₀ S w =
      (false, cid) := by
  rw [validate_generated, if_neg (cid_len_check_passes hcid), if_neg]
  omega

/-- C1 witness: a concrete round trip at `t0 = 1000000`, window 10
seconds, validated 5 nanoseconds later, recovering the 8-byte CID. -/
theorem retry_token_roundtrip_witness :
    (List.replicate 32 0 : Bytes).length = kTokenSecretLen ∧
    InvalidRetryToken ⟨1000005, fun _ => 7⟩
        (GenerateRetryToken ⟨1000000, fun _ => 7⟩ [127, 0, 0, 1]
          [1, 2, 3, 4, 5, 6, 7, 8] (List.replicate 32 0))
        [127, 0, 0, 1] [9, 9] (List.replicate 32 0) 10 =
      (false, [1, 2, 3, 4, 5, 6, 7, 8]) :=
  ⟨by decide,
    retry_token_roundtrip ⟨1000000, fun _ => 7⟩ ⟨1000005, fun _ => 7⟩
      [127, 0, 0, 1] [1, 2, 3, 4, 5, 6, 7, 8] (List.replicate 32 0) [9, 9] 10
      (by decide) (by decide) (by decide) (by decide) (by decide)⟩

/-- C2 counterexample: the claim says future-dated tokens are rejected,
but `InvalidRetryToken` has no future-timestamp check.  A token whose
embedded timestamp is `2 ^ 62` (about 146 years of nanoseconds ahead of
the validating clock, which reads 0) is reported valid. -/
theorem future_dated_token_accepted :
    InvalidRetryToken ⟨0, fun _ => 0⟩
        (GenerateRetryToken ⟨2 ^ 62, fun _ => 0⟩ [127, 0, 0, 1]
          [1, 2, 3, 4, 5, 6, 7, 8] (List.replicate 32 0))
        [127, 0, 0, 1] [] (List.replicate 32 0) 10 =
      (false, [1, 2, 3, 4, 5, 6, 7, 8]) ∧
    (0 : Nat) + 2 ^ 61 < 2 ^ 62 := by
  constructor
  · rw [validate_generated]
    norm_num [NGTCP2_MIN_CIDLEN, NGTCP2_MAX_CIDLEN, NGTCP2_SECONDS]
  · norm_num

/-- C2 amended: `InvalidRetryToken` applies no future-timestamp or
clock-skew check at all; a genuine token whose embedded timestamp is
arbitrarily far ahead of the validating clock (by any skew) passes the
freshness test, which rejects only when
`(t + window * NGTCP2_SECONDS) mod 2 ^ 64 < now`. -/
theorem no_future_timestamp_check (e₁ e₂ : CryptoEnv) (addr cid S ocid₀ : Bytes)
    (w skew : Nat)
    (hcid : cid.length = 0 ∨
      (NGTCP2_MIN_CIDLEN ≤ cid.length ∧ cid.length ≤ NGTCP2_MAX_CIDLEN))
    (hov : e₁.hrtime + w * NGTCP2_SECONDS < 2 ^ 64)
    (hfut : e₂.hrtime + skew ≤ e₁.hrtime) :
    InvalidRetryToken e₂ (GenerateRetryToken e₁ addr cid S) addr ocid₀ S w =
      (false, cid) := by
  rw [validate_generated, if_neg (cid_len_check_passes hcid), if_neg]
  omega

/-- C2 amended witness: a token stamped `2 ^ 62` validated at clock 0,
a skew of `2 ^ 61` nanoseconds, still accepted. -/
theorem no_future_timestamp_check_witness :
    (0 : Nat) + 2 ^ 61 ≤ 2 ^ 62 ∧
    InvalidRetryToken ⟨0, fun _ => 3⟩
        (GenerateRetryToken ⟨2 ^ 62, fun _ => 3⟩ [10, 0, 0, 2] [5]
          (List.replicate 32 1))
        [10, 0, 0, 2] [4, 4] (List.replicate 32 1) 10 = (false, [5]) :=
  ⟨by decide,
    no_future_timestamp_check ⟨2 ^ 62, fun _ => 3⟩ ⟨0, fun _ => 3⟩
      [10, 0, 0, 2] [5] (List.replicate 32 1) [4, 4] 10 (2 ^ 61)
      (by decide) (by decide) (by decide)⟩

/-- C3 counterexample: the claim says `GenerateRetryToken` rejects inputs
whose assembled plaintext exceeds the 4096-byte cap, but the source
contains no such check: on a 4085-byte address the assembled plaintext is
4097 bytes, beyond the cap, and the function still proceeds to produce a
full token (plaintext plus tag plus random data). -/
theorem plaintext_cap_not_enforced :
    kRetryTokenPlaintextCap <
      (retryTokenPlaintext (List.replicate 4085 0) 0 [1, 2, 3, 4]).length ∧
    (GenerateRetryToken ⟨0, fun _ => 0⟩ (List.replicate 4085 0) [1, 2, 3, 4]
        (List.replicate 32 0)).length =
      4097 + kAeadTagLen + kTokenRandLen := by
  constructor
  · simp only [retryTokenPlaintext, List.length_append, u64BytesLE_length,
      List.length_replicate, List.length_cons, List.length_nil,
      kRetryTokenPlaintextCap]
    norm_num
  · rw [generateRetryToken_length]
    simp only [retryTokenPlaintext, List.length_append, u64BytesLE_length,
      List.length_replicate, List.length_cons, List.length_nil]

/-- C3 amended: `GenerateRetryToken` performs no plaintext-size check;
instead, for every socket address (at most 28 raw bytes) and every
protocol-bounded connection ID (at most 20 bytes) the assembled plaintext
is at most 56 bytes, far below the 4096-byte scratch buffer, so the
buffer is never overrun on inputs satisfying the data-model invariants. -/
theorem plaintext_within_cap (addr cid : Bytes) (now : Nat)
    (haddr : addr.length ≤ kMaxSockaddrLen)
    (hcid : cid.length ≤ NGTCP2_MAX_CIDLEN) :
    (retryTokenPlaintext addr now cid).length ≤ kRetryTokenPlaintextCap := by
  simp only [kMaxSockaddrLen, NGTCP2_MAX_CIDLEN] at haddr hcid
  simp only [retryTokenPlaintext, List.length_append, u64BytesLE_length,
    kRetryTokenPlaintextCap]
  omega

/-- C3 amended witness: a concrete 4-byte address and 2-byte CID stay
within the cap. -/
theorem plaintext_within_cap_witness :
    ([127, 0, 0, 1] : Bytes).length ≤ kMaxSockaddrLen ∧
    ([1, 2] : Bytes).length ≤ NGTCP2_MAX_CIDLEN ∧
    (retryTokenPlaintext [127, 0, 0, 1] 1000000 [1, 2]).length ≤
      kRetryTokenPlaintextCap :=
  ⟨by decide, by decide,
    plaintext_within_cap [127, 0, 0, 1] [1, 2] 1000000 (by decide) (by decide)⟩

/-- C4: Address binding.  A token generated for address `A` is reported
invalid when presented with any address `B` whose byte encoding differs
from `A`: the AEAD associated data is the address, so authentication
fails. -/
theorem retry_token_address_binding (e₁ e₂ : CryptoEnv)
    (addrA addrB cid S ocid₀ : Bytes) (w : Nat) (hne : addrB ≠ addrA) :
    InvalidRetryToken e₂ (GenerateRetryToken e₁ addrA cid S) addrB ocid₀ S w =
      (true, ocid₀) := by
  set rand := entropyBytes e₁ kTokenRandLen with hrand_def
  have hrand : rand.length = kTokenRandLen := entropyBytes_length e₁ kTokenRandLen
  set ki := DeriveTokenKey rand S with hki_def
  set pt := retryTokenPlaintext addrA e₁.hrtime cid with hpt_def
  set ct := cryptoEncrypt pt ki.1 ki.2 addrA with hct_def
  have hgen : GenerateRetryToken e₁ addrA cid S = ct ++ rand := rfl
  rw [hgen]
  simp only [InvalidRetryToken]
  have hlen1 : ¬ (ct ++ rand).length < kTokenRandLen := by
    simp [List.length_append, hrand]
  rw [if_neg hlen1]
  have hclen : (ct ++ rand).length - kTokenRandLen = ct.length := by
    simp [List.length_append, hrand]
  rw [hclen, List.take_left, List.drop_left, ← hki_def,
    cryptoDecrypt_encrypt_ne_aad pt ki.1 ki.2 addrA addrB hne]

/-- C4 witness: a token bound to 127.0.0.1 presented from 127.0.0.2 is
rejected with the out-parameter untouched. -/
theorem retry_token_address_binding_witness :
    ([127, 0, 0, 2] : Bytes) ≠ [127, 0, 0, 1] ∧
    InvalidRetryToken ⟨5, fun _ => 0⟩
        (GenerateRetryToken ⟨3, fun _ => 0⟩ [127, 0, 0, 1] [1, 2]
          (List.replicate 32 0))
        [127, 0, 0, 2] [9] (List.replicate 32 0) 10 = (true, [9]) :=
  ⟨by decide,
    retry_token_address_binding ⟨3, fun _ => 0⟩ ⟨5, fun _ => 0⟩
      [127, 0, 0, 1] [127, 0, 0, 2] [1, 2] (List.replicate 32 0) [9] 10
      (by decide)⟩

/-- C5: Freshness.  A validly encoded token with embedded timestamp `t0`
is reported invalid when validated at
`now = t0 + window * NGTCP2_SECONDS + 1` (strictly past the scaled
expiration window) and reported valid, recovering the CID, at
`now = t0 + window * NGTCP2_SECONDS - 1`. -/
theorem freshness_window (e₁ e₂ e₃ : CryptoEnv) (addr cid S ocid₀ : Bytes)
    (w : Nat)
    (hcid : cid.length = 0 ∨
      (NGTCP2_MIN_CIDLEN ≤ cid.length ∧ cid.length ≤ NGTCP2_MAX_CIDLEN))
    (hov : e₁.hrtime + w * NGTCP2_SECONDS + 1 < 2 ^ 64)
    (h₂ : e₂.hrtime = e₁.hrtime + w * NGTCP2_SECONDS + 1)
    (h₃ : e₃.hrtime = e₁.hrtime + w * NGTCP2_SECONDS - 1) :
    (InvalidRetryToken e₂ (GenerateRetryToken e₁ addr cid S) addr ocid₀ S w).1
        = true ∧
    InvalidRetryToken e₃ (GenerateRetryToken e₁ addr cid S) addr ocid₀ S w =
      (false, cid) := by
  constructor
  · rw [validate_generated, if_neg (cid_len_check_passes hcid), if_pos]
    omega
  · rw [validate_generated, if_neg (cid_len_check_passes hcid), if_neg]
    omega

/-- C5 witness: window 10 seconds from `t0 = 1000000`; invalid one
nanosecond past the window, valid one nanosecond before it. -/
theorem freshness_window_witness :
    (⟨1000000 + 10 * NGTCP2_SECONDS + 1, fun _ => 2⟩ : CryptoEnv).hrtime =
      1000000 + 10 * NGTCP2_SECONDS + 1 ∧
    (InvalidRetryToken ⟨1000000 + 10 * NGTCP2_SECONDS + 1, fun _ => 2⟩
        (GenerateRetryToken ⟨1000000, fun _ => 2⟩ [127, 0, 0, 1] [6, 7]
          (List.replicate 32 0))
        [127, 0, 0, 1] [8] (List.replicate 32 0) 10).1 = true ∧
    InvalidRetryToken ⟨1000000 + 10 * NGTCP2_SECONDS - 1, fun _ => 2⟩
        (GenerateRetryToken ⟨1000000, fun _ => 2⟩ [127, 0, 0, 1] [6, 7]
          (List.replicate 32 0))
        [127, 0, 0, 1] [8] (List.replicate 32 0) 10 = (false, [6, 7]) := by
  refine ⟨rfl, ?_⟩
  exact freshness_window ⟨1000000, fun _ => 2⟩
    ⟨1000000 + 10 * NGTCP2_SECONDS + 1, fun _ => 2⟩
    ⟨1000000 + 10 * NGTCP2_SECONDS - 1, fun _ => 2⟩
    [127, 0, 0, 1] [6, 7] (List.replicate 32 0) [8] 10
    (by decide) (by decide) rfl rfl

/-- C6: CID-length acceptance.  For a decryptable, fresh, address-matching
token carrying a connection ID of arbitrary length, validation rejects
exactly when the derived CID length is neither 0 nor within
[NGTCP2_MIN_CIDLEN, NGTCP2_MAX_CIDLEN]; in particular a zero-length CID
is accepted and validation returns a zero-length original CID. -/
theorem cid_length_acceptance (e₁ e₂ : CryptoEnv) (addr cid S ocid₀ : Bytes)
    (w : Nat)
    (hfresh : e₂.hrtime % 2 ^ 64 ≤
      (e₁.hrtime % 2 ^ 64 + w * NGTCP2_SECONDS) % 2 ^ 64) :
    ((InvalidRetryToken e₂ (GenerateRetryToken e₁ addr cid S) addr ocid₀ S w).1
        = true ↔
      cid.length ≠ 0 ∧
        (cid.length < NGTCP2_MIN_CIDLEN ∨ NGTCP2_MAX_CIDLEN < cid.length)) ∧
    (cid = [] →
      InvalidRetryToken e₂ (GenerateRetryToken e₁ addr cid S) addr ocid₀ S w =
        (false, [])) := by
  constructor
  · rw [validate_generated]
    by_cases hP : cid.length ≠ 0 ∧
        (cid.length < NGTCP2_MIN_CIDLEN ∨ NGTCP2_MAX_CIDLEN < cid.length)
    · rw [if_pos hP]
      simpa using hP
    · rw [if_neg hP, if_neg (by omega)]
      simpa using hP
  · intro hnil
    subst hnil
    rw [validate_generated, if_neg (by simp), if_neg (by omega)]

/-- C6 witness: the empty CID is accepted and returned empty. -/
theorem cid_length_acceptance_witness :
    (⟨7, fun _ => 1⟩ : CryptoEnv).hrtime % 2 ^ 64 ≤
      ((⟨5, fun _ => 1⟩ : CryptoEnv).hrtime % 2 ^ 64 + 10 * NGTCP2_SECONDS)
        % 2 ^ 64 ∧
    (((InvalidRetryToken ⟨7, fun _ => 1⟩
        (GenerateRetryToken ⟨5, fun _ => 1⟩ [127, 0, 0, 1] []
          (List.replicate 32 0))
        [127, 0, 0, 1] [3] (List.replicate 32 0) 10).1 = true ↔
      ([] : Bytes).length ≠ 0 ∧
        (([] : Bytes).length < NGTCP2_MIN_CIDLEN ∨
          NGTCP2_MAX_CIDLEN < ([] : Bytes).length)) ∧
    (([] : Bytes) = [] →
      InvalidRetryToken ⟨7, fun _ => 1⟩
        (GenerateRetryToken ⟨5, fun _ => 1⟩ [127, 0, 0, 1] []
          (List.replicate 32 0))
        [127, 0, 0, 1] [3] (List.replicate 32 0) 10 = (false, []))) :=
  ⟨by decide,
    cid_length_acceptance ⟨5, fun _ => 1⟩ ⟨7, fun _ => 1⟩ [127, 0, 0, 1] []
      (List.replicate 32 0) [3] 10 (by decide)⟩

/-- C7: Uniform invalid result.  Whatever rejection branch fires — token
too short, AEAD authentication failure, plaintext too short, bad CID
length, address mismatch, or expiry — `InvalidRetryToken` returns one and
the same externally observable result, the single boolean `true`, so the
caller learns nothing about which check failed. -/
theorem uniform_invalid_result (e e' : CryptoEnv)
    (token token' addr addr' ocid₀ ocid₀' S S' : Bytes) (w w' : Nat)
    (r r' : RetryTokenFailure)
    (h : validateReason e token addr S w = some r)
    (h' : validateReason e' token' addr' S' w' = some r') :
    (InvalidRetryToken e token addr ocid₀ S w).1 = true ∧
    (InvalidRetryToken e token addr ocid₀ S w).1 =
      (InvalidRetryToken e' token' addr' ocid₀' S' w').1 := by
  have h₁ := invalid_fst_eq_reason_isSome e token addr ocid₀ S w
  have h₂ := invalid_fst_eq_reason_isSome e' token' addr' ocid₀' S' w'
  rw [h] at h₁
  rw [h'] at h₂
  simp only [Option.isSome_some] at h₁ h₂
  exact ⟨h₁, by rw [h₁, h₂]⟩

/-- C7 witness: a too-short token and an unauthentic 48-byte token fail
for different reasons yet produce the same observable result. -/
theorem uniform_invalid_result_witness :
    validateReason ⟨0, fun _ => 0⟩ [] [127, 0, 0, 1] (List.replicate 32 0) 10 =
      some RetryTokenFailure.tokenTooShort ∧
    validateReason ⟨0, fun _ => 0⟩ (List.replicate 48 0) [127, 0, 0, 1]
        (List.replicate 32 0) 10 =
      some RetryTokenFailure.authenticationFailure ∧
    ((InvalidRetryToken ⟨0, fun _ => 0⟩ [] [127, 0, 0, 1] [9]
        (List.replicate 32 0) 10).1 = true ∧
      (InvalidRetryToken ⟨0, fun _ => 0⟩ [] [127, 0, 0, 1] [9]
          (List.replicate 32 0) 10).1 =
        (InvalidRetryToken ⟨0, fun _ => 0⟩ (List.replicate 48 0) [127, 0, 0, 1]
            [9] (List.replicate 32 0) 10).1) :=
  ⟨by decide, by decide,
    uniform_invalid_result ⟨0, fun _ => 0⟩ ⟨0, fun _ => 0⟩ []
      (List.replicate 48 0) [127, 0, 0, 1] [127, 0, 0, 1] [9] [9]
      (List.replicate 32 0) (List.replicate 32 0) 10 10
      RetryTokenFailure.tokenTooShort RetryTokenFailure.authenticationFailure
      (by decide) (by decide)⟩

/-- C8: Reset-token determinism.  `GenerateResetToken` is a pure
deterministic function of (secret, cid): it reads neither the clock nor
the entropy source, so two calls with identical inputs under any two
process states produce byte-identical 16-byte outputs. -/
theorem reset_token_deterministic (e₁ e₂ : CryptoEnv) (secret cid : Bytes) :
    GenerateResetToken e₁ secret cid = GenerateResetToken e₂ secret cid ∧
    (GenerateResetToken e₁ secret cid).length =
      NGTCP2_STATELESS_RESET_TOKENLEN := by
  refine ⟨rfl, ?_⟩
  simp [GenerateResetToken, statelessResetToken, NGTCP2_STATELESS_RESET_TOKENLEN]

/-- C9: Flow-label bound and determinism.  For protocol-shaped inputs
`GenerateFlowLabel` returns a label strictly below `2 ^ 20` (the value is
masked to the 20-bit label width), and two calls with identical inputs
under any two process states return the same label. -/
theorem flow_label_bound_deterministic (e₁ e₂ : CryptoEnv)
    (laddr raddr cid secret : Bytes)
    (hl : laddr.length ≤ kMaxSockaddrLen)
    (hr : raddr.length ≤ kMaxSockaddrLen)
    (hc : cid.length ≤ NGTCP2_MAX_CIDLEN) :
    ∃ label, GenerateFlowLabel e₁ laddr raddr cid secret = some label ∧
      GenerateFlowLabel e₂ laddr raddr cid secret = some label ∧
      label < 2 ^ 20 := by
  have hinfo : laddr.length + raddr.length + cid.length ≤ kInfoLen := by
    simp only [kMaxSockaddrLen, NGTCP2_MAX_CIDLEN] at hl hr hc
    simp only [kInfoLen, kMaxSockaddrLen, NGTCP2_MAX_CIDLEN]
    omega
  refine ⟨hkdfExpandU32 secret (laddr ++ raddr ++ cid) % (kLabelMask + 1),
    ?_, ?_, ?_⟩
  · simp only [GenerateFlowLabel]
    rw [if_pos hinfo]
  · simp only [GenerateFlowLabel]
    rw [if_pos hinfo]
  · have hm : kLabelMask + 1 = 2 ^ 20 := by norm_num [kLabelMask]
    rw [← hm]
    exact Nat.mod_lt _ (by omega)

/-- C9 witness: concrete IPv4-sized addresses and a 1-byte CID. -/
theorem flow_label_bound_deterministic_witness :
    ([127, 0, 0, 1] : Bytes).length ≤ kMaxSockaddrLen ∧
    ([10, 0, 0, 2] : Bytes).length ≤ kMaxSockaddrLen ∧
    ([5] : Bytes).length ≤ NGTCP2_MAX_CIDLEN ∧
    ∃ label, GenerateFlowLabel ⟨1, fun _ => 1⟩ [127, 0, 0, 1] [10, 0, 0, 2] [5]
        (List.replicate 32 0) = some label ∧
      GenerateFlowLabel ⟨2, fun _ => 9⟩ [127, 0, 0, 1] [10, 0, 0, 2] [5]
        (List.replicate 32 0) = some label ∧
      label < 2 ^ 20 :=
  ⟨by decide, by decide, by decide,
    flow_label_bound_deterministic ⟨1, fun _ => 1⟩ ⟨2, fun _ => 9⟩
      [127, 0, 0, 1] [10, 0, 0, 2] [5] (List.replicate 32 0)
      (by decide) (by decide) (by decide)⟩

/-- C10: Output-parameter atomicity on failure.  Whenever
`InvalidRetryToken` reports a token invalid — through any rejection
branch — the caller-supplied original-CID out-parameter is left
completely unmodified; it is written only on the single success path. -/
theorem invalid_leaves_ocid_unchanged (e : CryptoEnv)
    (token addr ocid₀ S : Bytes) (w : Nat)
    (h : (InvalidRetryToken e token addr ocid₀ S w).1 = true) :
    (InvalidRetryToken e token addr ocid₀ S w).2 = ocid₀ := by
  rcases invalid_retry_token_cases e token addr ocid₀ S w with hc | hc
  · rw [hc]
  · rw [h] at hc
    cases hc

/-- C10 witness: a rejected (too short) token leaves the out-parameter
untouched. -/
theorem invalid_leaves_ocid_unchanged_witness :
    (InvalidRetryToken ⟨0, fun _ => 0⟩ [] [1] [9, 9]
        (List.replicate 32 0) 1).1 = true ∧
    (InvalidRetryToken ⟨0, fun _ => 0⟩ [] [1] [9, 9]
        (List.replicate 32 0) 1).2 = [9, 9] :=
  ⟨by decide,
    invalid_leaves_ocid_unchanged ⟨0, fun _ => 0⟩ [] [1] [9, 9]
      (List.replicate 32 0) 1 (by decide)⟩

end NodeQuic
